import Mathlib

/-!
Verification of the nutrition-score engine (`internal/core/scorer.go`,
`internal/core/validator.go`, `pkg/models`) of the nutrition-score-go
repository.

Nutrient quantities are Go `float64` values; all arithmetic the engine
performs on them is comparison against exact decimal constants, so they are
embedded as rationals (`ℚ`).  Machine integers (`int`) are embedded as `ℤ`:
all integer arithmetic in the engine stays far from overflow.  Display
strings built with `fmt.Sprintf` (the `Message` field of validation errors)
are not modelled; every other field of every record is.
-/

/-- `type ScoreType int` (pkg/models/models.go).  The Go type is an `int`
with four named constants, so values outside the enumeration are
representable. -/
abbrev ScoreType : Type := Int

/-- `FoodType ScoreType = iota` — 0. -/
def FoodType : ScoreType := (0 : Int)

/-- `BeverageType` — 1. -/
def BeverageType : ScoreType := (1 : Int)

/-- `WaterType` — 2. -/
def WaterType : ScoreType := (2 : Int)

/-- `CheeseType` — 3. -/
def CheeseType : ScoreType := (3 : Int)

/-- `models.NutritionalData`: the seven per-100g nutrient fields. -/
structure NutritionalData where
  Energy : ℚ
  Sugars : ℚ
  SaturatedFattyAcids : ℚ
  Sodium : ℚ
  Fruits : ℚ
  Fibre : ℚ
  Protein : ℚ
  deriving DecidableEq, Repr

/-- `models.NutritionalScore`: the engine's output record. -/
structure NutritionalScore where
  Value : ℤ
  Grade : String
  Positive : ℤ
  Negative : ℤ
  ScoreType : ScoreType
  deriving DecidableEq, Repr

/-- `models.ValidationError` (pkg/models/errors.go): field name, offending
value and the optional bounds.  The human-readable `Message` string is not
modelled. -/
structure ValidationError where
  Field : String
  Value : ℚ
  Min : Option ℚ
  Max : Option ℚ
  deriving DecidableEq, Repr

/-- `models.NutritionalDataValidation`: per-field [min,max] rule set. -/
structure NutritionalDataValidation where
  EnergyMin : ℚ
  EnergyMax : ℚ
  SugarsMin : ℚ
  SugarsMax : ℚ
  SaturatedFatMin : ℚ
  SaturatedFatMax : ℚ
  SodiumMin : ℚ
  SodiumMax : ℚ
  FruitsMin : ℚ
  FruitsMax : ℚ
  FibreMin : ℚ
  FibreMax : ℚ
  ProteinMin : ℚ
  ProteinMax : ℚ
  deriving DecidableEq, Repr

/-- `models.DefaultValidationRules()`. -/
def DefaultValidationRules : NutritionalDataValidation :=
  { EnergyMin := 0, EnergyMax := 4000
    SugarsMin := 0, SugarsMax := 100
    SaturatedFatMin := 0, SaturatedFatMax := 100
    SodiumMin := 0, SodiumMax := 10000
    FruitsMin := 0, FruitsMax := 100
    FibreMin := 0, FibreMax := 50
    ProteinMin := 0, ProteinMax := 100 }

/-- `InputValidator.ValidateNutritionalData` (internal/core/validator.go):
for each of the seven fields, in source order, append an error when the
value is below the minimum and another when it is above the maximum. -/
def ValidateNutritionalData (rules : NutritionalDataValidation)
    (data : NutritionalData) : List ValidationError :=
  (if data.Energy < rules.EnergyMin then
    [{ Field := "energy", Value := data.Energy,
       Min := some rules.EnergyMin, Max := some rules.EnergyMax }] else []) ++
  (if data.Energy > rules.EnergyMax then
    [{ Field := "energy", Value := data.Energy,
       Min := some rules.EnergyMin, Max := some rules.EnergyMax }] else []) ++
  (if data.Sugars < rules.SugarsMin then
    [{ Field := "sugars", Value := data.Sugars,
       Min := some rules.SugarsMin, Max := some rules.SugarsMax }] else []) ++
  (if data.Sugars > rules.SugarsMax then
    [{ Field := "sugars", Value := data.Sugars,
       Min := some rules.SugarsMin, Max := some rules.SugarsMax }] else []) ++
  (if data.SaturatedFattyAcids < rules.SaturatedFatMin then
    [{ Field := "saturated_fatty_acids", Value := data.SaturatedFattyAcids,
       Min := some rules.SaturatedFatMin, Max := some rules.SaturatedFatMax }] else []) ++
  (if data.SaturatedFattyAcids > rules.SaturatedFatMax then
    [{ Field := "saturated_fatty_acids", Value := data.SaturatedFattyAcids,
       Min := some rules.SaturatedFatMin, Max := some rules.SaturatedFatMax }] else []) ++
  (if data.Sodium < rules.SodiumMin then
    [{ Field := "sodium", Value := data.Sodium,
       Min := some rules.SodiumMin, Max := some rules.SodiumMax }] else []) ++
  (if data.Sodium > rules.SodiumMax then
    [{ Field := "sodium", Value := data.Sodium,
       Min := some rules.SodiumMin, Max := some rules.SodiumMax }] else []) ++
  (if data.Fruits < rules.FruitsMin then
    [{ Field := "fruits", Value := data.Fruits,
       Min := some rules.FruitsMin, Max := some rules.FruitsMax }] else []) ++
  (if data.Fruits > rules.FruitsMax then
    [{ Field := "fruits", Value := data.Fruits,
       Min := some rules.FruitsMin, Max := some rules.FruitsMax }] else []) ++
  (if data.Fibre < rules.FibreMin then
    [{ Field := "fibre", Value := data.Fibre,
       Min := some rules.FibreMin, Max := some rules.FibreMax }] else []) ++
  (if data.Fibre > rules.FibreMax then
    [{ Field := "fibre", Value := data.Fibre,
       Min := some rules.FibreMin, Max := some rules.FibreMax }] else []) ++
  (if data.Protein < rules.ProteinMin then
    [{ Field := "protein", Value := data.Protein,
       Min := some rules.ProteinMin, Max := some rules.ProteinMax }] else []) ++
  (if data.Protein > rules.ProteinMax then
    [{ Field := "protein", Value := data.Protein,
       Min := some rules.ProteinMin, Max := some rules.ProteinMax }] else [])

/-- Energy `switch` block of `ScoreCalculator.CalculateNegativePoints`. -/
def energyPoints (energy : ℚ) : ℤ :=
  if energy ≤ 335 then 0
  else if energy ≤ 670 then 1
  else if energy ≤ 1005 then 2
  else if energy ≤ 1340 then 3
  else if energy ≤ 1675 then 4
  else if energy ≤ 2010 then 5
  else if energy ≤ 2345 then 6
  else if energy ≤ 2680 then 7
  else if energy ≤ 3015 then 8
  else if energy ≤ 3350 then 9
  else 10

/-- Sugars `switch` block of `ScoreCalculator.CalculateNegativePoints`. -/
def sugarPoints (sugars : ℚ) : ℤ :=
  if sugars ≤ 4.5 then 0
  else if sugars ≤ 9 then 1
  else if sugars ≤ 13.5 then 2
  else if sugars ≤ 18 then 3
  else if sugars ≤ 22.5 then 4
  else if sugars ≤ 27 then 5
  else if sugars ≤ 31 then 6
  else if sugars ≤ 36 then 7
  else if sugars ≤ 40 then 8
  else if sugars ≤ 45 then 9
  else 10

/-- Saturated-fat `switch` block of `ScoreCalculator.CalculateNegativePoints`. -/
def satFatPoints (satFat : ℚ) : ℤ :=
  if satFat ≤ 1 then 0
  else if satFat ≤ 2 then 1
  else if satFat ≤ 3 then 2
  else if satFat ≤ 4 then 3
  else if satFat ≤ 5 then 4
  else if satFat ≤ 6 then 5
  else if satFat ≤ 7 then 6
  else if satFat ≤ 8 then 7
  else if satFat ≤ 9 then 8
  else if satFat ≤ 10 then 9
  else 10

/-- Sodium `switch` block of `ScoreCalculator.CalculateNegativePoints`. -/
def sodiumPoints (sodium : ℚ) : ℤ :=
  if sodium ≤ 90 then 0
  else if sodium ≤ 180 then 1
  else if sodium ≤ 270 then 2
  else if sodium ≤ 360 then 3
  else if sodium ≤ 450 then 4
  else if sodium ≤ 540 then 5
  else if sodium ≤ 630 then 6
  else if sodium ≤ 720 then 7
  else if sodium ≤ 810 then 8
  else if sodium ≤ 900 then 9
  else 10

/-- Fruits/vegetables/nuts `switch` block of
`ScoreCalculator.CalculatePositivePoints`. -/
def fruitsPoints (fruits : ℚ) : ℤ :=
  if fruits ≤ 40 then 0
  else if fruits ≤ 60 then 1
  else if fruits ≤ 80 then 2
  else 5

/-- Fiber `switch` block of `ScoreCalculator.CalculatePositivePoints`. -/
def fiberPoints (fiber : ℚ) : ℤ :=
  if fiber ≤ 0.9 then 0
  else if fiber ≤ 1.9 then 1
  else if fiber ≤ 2.8 then 2
  else if fiber ≤ 3.7 then 3
  else if fiber ≤ 4.7 then 4
  else 5

/-- Protein `switch` block of `ScoreCalculator.CalculatePositivePoints`. -/
def proteinPoints (protein : ℚ) : ℤ :=
  if protein ≤ 1.6 then 0
  else if protein ≤ 3.2 then 1
  else if protein ≤ 4.8 then 2
  else if protein ≤ 6.4 then 3
  else if protein ≤ 8.0 then 4
  else 5

/-- `ScoreCalculator.CalculateNegativePoints`: energy + sugars + saturated
fat + sodium points. -/
def CalculateNegativePoints (data : NutritionalData) : ℤ :=
  energyPoints data.Energy + sugarPoints data.Sugars +
    satFatPoints data.SaturatedFattyAcids + sodiumPoints data.Sodium

/-- `ScoreCalculator.CalculatePositivePoints`: fruits + fiber + protein
points.  The `foodType` parameter is unused by the source body. -/
def CalculatePositivePoints (data : NutritionalData) (_foodType : ScoreType) : ℤ :=
  fruitsPoints data.Fruits + fiberPoints data.Fibre + proteinPoints data.Protein

/-- `ScoreCalculator.GetFinalScore`: the category combination rule.  In the
Beverage branch the source takes `min(positive, 5)` of the already-summed
positive total when it is positive. -/
def GetFinalScore (negative positive : ℤ) (foodType : ScoreType) : ℤ :=
  if foodType = WaterType then 0
  else if foodType = CheeseType then negative - positive
  else if foodType = BeverageType then
    let fruitsPts : ℤ := if positive > 0 then min positive 5 else 0
    negative - fruitsPts
  else
    if negative ≥ 11 then negative - positive else negative - positive

/-- `NutritionalScorer.GetScoreGrade`: score to letter grade. -/
def GetScoreGrade (score : ℤ) : String :=
  if score ≤ -1 then "A"
  else if score ≤ 2 then "B"
  else if score ≤ 10 then "C"
  else if score ≤ 18 then "D"
  else "E"

/-- `NutritionalScorer.CalculateScore`: Go returns the pair
`(models.NutritionalScore, error)`; the error (`nil` or the first
validation error) is embedded as an `Option ValidationError`.  The zero
`models.NutritionalScore{}` literal has `Value=0`, `Grade=""`,
`Positive=0`, `Negative=0` and `ScoreType=0` (`FoodType`). -/
def CalculateScore (data : NutritionalData) (foodType : ScoreType) :
    NutritionalScore × Option ValidationError :=
  match ValidateNutritionalData DefaultValidationRules data with
  | e :: _ =>
    ({ Value := 0, Grade := "", Positive := 0, Negative := 0,
       ScoreType := FoodType }, some e)
  | [] =>
    if foodType = WaterType then
      ({ Value := 0, Grade := "A", Positive := 0, Negative := 0,
         ScoreType := foodType }, none)
    else
      let negativePoints := CalculateNegativePoints data
      let positivePoints := CalculatePositivePoints data foodType
      let finalScore := GetFinalScore negativePoints positivePoints foodType
      let grade := GetScoreGrade finalScore
      ({ Value := finalScore, Grade := grade, Positive := positivePoints,
         Negative := negativePoints, ScoreType := foodType }, none)

/-- `models.NutritionalError` (pkg/models/errors.go), as produced by
`NewValidationError`; only the fields that constructor sets are modelled
(`Timestamp` and `Details` stay at their zero values there too). -/
structure NutritionalError where
  errorType : String
  message : String
  field : String
  code : String
  suggestions : List String
  deriving DecidableEq, Repr

/-- `InputValidator.ValidateScoreType` (internal/core/validator.go):
`nil` for the four enumerated constants, otherwise the validation error
built by `models.NewValidationError`. -/
def ValidateScoreType (scoreType : ScoreType) : Option NutritionalError :=
  if scoreType = FoodType ∨ scoreType = BeverageType ∨
      scoreType = WaterType ∨ scoreType = CheeseType then
    none
  else
    some { errorType := "validation"
           message := "Invalid score type: " ++ toString (scoreType : Int) ++
             ". Must be 0 (Food), 1 (Beverage), 2 (Water), or 3 (Cheese)"
           field := "score_type"
           code := "VALIDATION_FAILED"
           suggestions := ["Use 0 for Food, 1 for Beverage, 2 for Water, or 3 for Cheese"] }

/-- C3: the grade mapper returns "A" for scores ≤ −1, "B" on (−1,2],
"C" on (2,10], "D" on (10,18] and "E" above 18; each upper edge is
inclusive. -/
theorem getScoreGrade_bands (s : ℤ) :
    (s ≤ -1 → GetScoreGrade s = "A") ∧
    (-1 < s → s ≤ 2 → GetScoreGrade s = "B") ∧
    (2 < s → s ≤ 10 → GetScoreGrade s = "C") ∧
    (10 < s → s ≤ 18 → GetScoreGrade s = "D") ∧
    (18 < s → GetScoreGrade s = "E") := by
  unfold GetScoreGrade
  refine ⟨?_, ?_, ?_, ?_, ?_⟩ <;> intros <;> split_ifs <;> first | rfl | omega

/-- Witness for C3 at each band's inclusive upper edge and just past the
last bound. -/
theorem getScoreGrade_bands_witness :
    GetScoreGrade (-1) = "A" ∧ GetScoreGrade 2 = "B" ∧
    GetScoreGrade 10 = "C" ∧ GetScoreGrade 18 = "D" ∧
    GetScoreGrade 19 = "E" :=
  ⟨(getScoreGrade_bands (-1)).1 (by decide),
   (getScoreGrade_bands 2).2.1 (by decide) (by decide),
   (getScoreGrade_bands 10).2.2.1 (by decide) (by decide),
   (getScoreGrade_bands 18).2.2.2.1 (by decide) (by decide),
   (getScoreGrade_bands 19).2.2.2.2 (by decide)⟩

/-- Rank of a letter grade in the order A < B < C < D < E; used to state
monotonicity of the grade mapper. -/
def gradeRank (grade : String) : ℤ :=
  if grade = "A" then 0
  else if grade = "B" then 1
  else if grade = "C" then 2
  else if grade = "D" then 3
  else 4

/-- C8: the grade mapping is monotonic — a lower (better) score never gets
a worse letter than a higher score. -/
theorem getScoreGrade_monotone (s1 s2 : ℤ) (h : s1 ≤ s2) :
    gradeRank (GetScoreGrade s1) ≤ gradeRank (GetScoreGrade s2) := by
  have hr : ∀ s : ℤ, gradeRank (GetScoreGrade s) =
      (if s ≤ -1 then 0 else if s ≤ 2 then 1 else if s ≤ 10 then 2
       else if s ≤ 18 then 3 else 4) := by
    intro s
    unfold GetScoreGrade
    split_ifs <;> rfl
  rw [hr, hr]
  split_ifs <;> omega

/-- Witness for C8 at s1 = −3 ≤ 12 = s2. -/
theorem getScoreGrade_monotone_witness :
    gradeRank (GetScoreGrade (-3)) ≤ gradeRank (GetScoreGrade 12) :=
  getScoreGrade_monotone (-3) 12 (by decide)

/-- C2: for every record the validator accepts, scoring with the Water
type returns the fixed record Value=0, Grade="A", Positive=0, Negative=0
and no error, independent of the nutrient values. -/
theorem calculateScore_water (d : NutritionalData)
    (h : ValidateNutritionalData DefaultValidationRules d = []) :
    CalculateScore d WaterType =
      ({ Value := 0, Grade := "A", Positive := 0, Negative := 0,
         ScoreType := WaterType }, none) := by
  unfold CalculateScore
  rw [h]
  rfl

/-- Witness for C2 at the extreme in-range record (all fields at their
default maxima). -/
theorem calculateScore_water_witness :
    CalculateScore
        { Energy := 4000, Sugars := 100, SaturatedFattyAcids := 100,
          Sodium := 10000, Fruits := 100, Fibre := 50, Protein := 100 }
        WaterType =
      ({ Value := 0, Grade := "A", Positive := 0, Negative := 0,
         ScoreType := WaterType }, none) :=
  calculateScore_water _ (by decide)

/-- C9: for every record the validator accepts and every non-Water score
type, the Grade of the returned record is GetScoreGrade of its own Value. -/
theorem calculateScore_grade_consistent (d : NutritionalData) (t : ScoreType)
    (hv : ValidateNutritionalData DefaultValidationRules d = [])
    (ht : t ≠ WaterType) :
    (CalculateScore d t).1.Grade = GetScoreGrade (CalculateScore d t).1.Value := by
  unfold CalculateScore
  rw [hv]
  simp [ht]

/-- Witness for C9 at the all-zero record scored as Food. -/
theorem calculateScore_grade_consistent_witness :
    (CalculateScore
        { Energy := 0, Sugars := 0, SaturatedFattyAcids := 0, Sodium := 0,
          Fruits := 0, Fibre := 0, Protein := 0 } FoodType).1.Grade =
      GetScoreGrade (CalculateScore
        { Energy := 0, Sugars := 0, SaturatedFattyAcids := 0, Sodium := 0,
          Fruits := 0, Fibre := 0, Protein := 0 } FoodType).1.Value :=
  calculateScore_grade_consistent _ FoodType (by decide) (by decide)

/-- C10: whenever validation yields a non-empty error list, CalculateScore
returns the zero-valued record (Value=0, empty Grade, Positive=0,
Negative=0, ScoreType = the zero variant FoodType) paired with exactly the
first element of the validation error list. -/
theorem calculateScore_failure_zero_and_first (d : NutritionalData)
    (t : ScoreType)
    (h : ValidateNutritionalData DefaultValidationRules d ≠ []) :
    CalculateScore d t =
      ({ Value := 0, Grade := "", Positive := 0, Negative := 0,
         ScoreType := FoodType },
       (ValidateNutritionalData DefaultValidationRules d).head?) := by
  unfold CalculateScore
  cases hE : ValidateNutritionalData DefaultValidationRules d with
  | nil => exact absurd hE h
  | cons e rest => simp

/-- Witness for C10 at a record whose energy is −1. -/
theorem calculateScore_failure_zero_and_first_witness :
    CalculateScore
        { Energy := -1, Sugars := 0, SaturatedFattyAcids := 0, Sodium := 0,
          Fruits := 0, Fibre := 0, Protein := 0 } BeverageType =
      ({ Value := 0, Grade := "", Positive := 0, Negative := 0,
         ScoreType := FoodType },
       (ValidateNutritionalData DefaultValidationRules
          { Energy := -1, Sugars := 0, SaturatedFattyAcids := 0, Sodium := 0,
            Fruits := 0, Fibre := 0, Protein := 0 }).head?) :=
  calculateScore_failure_zero_and_first _ BeverageType (by decide)

/-- The energy table always yields a value in [0,10]. -/
theorem energyPoints_bounds (v : ℚ) : 0 ≤ energyPoints v ∧ energyPoints v ≤ 10 := by
  unfold energyPoints
  split_ifs <;> omega

/-- The sugars table always yields a value in [0,10]. -/
theorem sugarPoints_bounds (v : ℚ) : 0 ≤ sugarPoints v ∧ sugarPoints v ≤ 10 := by
  unfold sugarPoints
  split_ifs <;> omega

/-- The saturated-fat table always yields a value in [0,10]. -/
theorem satFatPoints_bounds (v : ℚ) : 0 ≤ satFatPoints v ∧ satFatPoints v ≤ 10 := by
  unfold satFatPoints
  split_ifs <;> omega

/-- The sodium table always yields a value in [0,10]. -/
theorem sodiumPoints_bounds (v : ℚ) : 0 ≤ sodiumPoints v ∧ sodiumPoints v ≤ 10 := by
  unfold sodiumPoints
  split_ifs <;> omega

/-- The fruits table always yields a value in [0,5]. -/
theorem fruitsPoints_bounds (v : ℚ) : 0 ≤ fruitsPoints v ∧ fruitsPoints v ≤ 5 := by
  unfold fruitsPoints
  split_ifs <;> omega

/-- The fiber table always yields a value in [0,5]. -/
theorem fiberPoints_bounds (v : ℚ) : 0 ≤ fiberPoints v ∧ fiberPoints v ≤ 5 := by
  unfold fiberPoints
  split_ifs <;> omega

/-- The protein table always yields a value in [0,5]. -/
theorem proteinPoints_bounds (v : ℚ) : 0 ≤ proteinPoints v ∧ proteinPoints v ≤ 5 := by
  unfold proteinPoints
  split_ifs <;> omega

/-- C5: for a record whose seven fields lie within the default validation
ranges, the negative total is in [0,40] and the positive total in [0,15]. -/
theorem points_totals_in_range (d : NutritionalData) (t : ScoreType)
    (_h : 0 ≤ d.Energy ∧ d.Energy ≤ 4000 ∧ 0 ≤ d.Sugars ∧ d.Sugars ≤ 100 ∧
      0 ≤ d.SaturatedFattyAcids ∧ d.SaturatedFattyAcids ≤ 100 ∧
      0 ≤ d.Sodium ∧ d.Sodium ≤ 10000 ∧ 0 ≤ d.Fruits ∧ d.Fruits ≤ 100 ∧
      0 ≤ d.Fibre ∧ d.Fibre ≤ 50 ∧ 0 ≤ d.Protein ∧ d.Protein ≤ 100) :
    0 ≤ CalculateNegativePoints d ∧ CalculateNegativePoints d ≤ 40 ∧
    0 ≤ CalculatePositivePoints d t ∧ CalculatePositivePoints d t ≤ 15 := by
  have h1 := energyPoints_bounds d.Energy
  have h2 := sugarPoints_bounds d.Sugars
  have h3 := satFatPoints_bounds d.SaturatedFattyAcids
  have h4 := sodiumPoints_bounds d.Sodium
  have h5 := fruitsPoints_bounds d.Fruits
  have h6 := fiberPoints_bounds d.Fibre
  have h7 := proteinPoints_bounds d.Protein
  unfold CalculateNegativePoints CalculatePositivePoints
  omega

/-- Witness for C5 at an in-range record with mixed values. -/
theorem points_totals_in_range_witness :
    0 ≤ CalculateNegativePoints
        { Energy := 2200, Sugars := 47, SaturatedFattyAcids := 18,
          Sodium := 24, Fruits := 0, Fibre := 7, Protein := 8 } ∧
    CalculateNegativePoints
        { Energy := 2200, Sugars := 47, SaturatedFattyAcids := 18,
          Sodium := 24, Fruits := 0, Fibre := 7, Protein := 8 } ≤ 40 ∧
    0 ≤ CalculatePositivePoints
        { Energy := 2200, Sugars := 47, SaturatedFattyAcids := 18,
          Sodium := 24, Fruits := 0, Fibre := 7, Protein := 8 } FoodType ∧
    CalculatePositivePoints
        { Energy := 2200, Sugars := 47, SaturatedFattyAcids := 18,
          Sodium := 24, Fruits := 0, Fibre := 7, Protein := 8 } FoodType ≤ 15 :=
  points_totals_in_range _ FoodType (by norm_num)

/-- Band-exactness property of the energy table: each band's upper
bound is inclusive, a value strictly past a bound falls in the next band,
and a value strictly past the last bound saturates at 10. -/
def EnergyBandsExact : Prop :=
    (∀ v : ℚ, v ≤ 335 → energyPoints v = 0) ∧
    (∀ v : ℚ, 335 < v → v ≤ 670 → energyPoints v = 1) ∧
    (∀ v : ℚ, 670 < v → v ≤ 1005 → energyPoints v = 2) ∧
    (∀ v : ℚ, 1005 < v → v ≤ 1340 → energyPoints v = 3) ∧
    (∀ v : ℚ, 1340 < v → v ≤ 1675 → energyPoints v = 4) ∧
    (∀ v : ℚ, 1675 < v → v ≤ 2010 → energyPoints v = 5) ∧
    (∀ v : ℚ, 2010 < v → v ≤ 2345 → energyPoints v = 6) ∧
    (∀ v : ℚ, 2345 < v → v ≤ 2680 → energyPoints v = 7) ∧
    (∀ v : ℚ, 2680 < v → v ≤ 3015 → energyPoints v = 8) ∧
    (∀ v : ℚ, 3015 < v → v ≤ 3350 → energyPoints v = 9) ∧
    (∀ v : ℚ, 3350 < v → energyPoints v = 10)

set_option maxHeartbeats 1600000 in
/-- The energy table satisfies its band-exactness property. -/
theorem energyPoints_bands : EnergyBandsExact := by
  unfold EnergyBandsExact energyPoints
  refine ⟨?_, ?_, ?_, ?_, ?_, ?_, ?_, ?_, ?_, ?_, ?_⟩ <;> (intros; split_ifs <;> first | rfl | linarith)

/-- Band-exactness property of the sugar table: each band's upper
bound is inclusive, a value strictly past a bound falls in the next band,
and a value strictly past the last bound saturates at 10. -/
def SugarBandsExact : Prop :=
    (∀ v : ℚ, v ≤ 4.5 → sugarPoints v = 0) ∧
    (∀ v : ℚ, 4.5 < v → v ≤ 9 → sugarPoints v = 1) ∧
    (∀ v : ℚ, 9 < v → v ≤ 13.5 → sugarPoints v = 2) ∧
    (∀ v : ℚ, 13.5 < v → v ≤ 18 → sugarPoints v = 3) ∧
    (∀ v : ℚ, 18 < v → v ≤ 22.5 → sugarPoints v = 4) ∧
    (∀ v : ℚ, 22.5 < v → v ≤ 27 → sugarPoints v = 5) ∧
    (∀ v : ℚ, 27 < v → v ≤ 31 → sugarPoints v = 6) ∧
    (∀ v : ℚ, 31 < v → v ≤ 36 → sugarPoints v = 7) ∧
    (∀ v : ℚ, 36 < v → v ≤ 40 → sugarPoints v = 8) ∧
    (∀ v : ℚ, 40 < v → v ≤ 45 → sugarPoints v = 9) ∧
    (∀ v : ℚ, 45 < v → sugarPoints v = 10)

set_option maxHeartbeats 1600000 in
/-- The sugar table satisfies its band-exactness property. -/
theorem sugarPoints_bands : SugarBandsExact := by
  unfold SugarBandsExact sugarPoints
  refine ⟨?_, ?_, ?_, ?_, ?_, ?_, ?_, ?_, ?_, ?_, ?_⟩ <;> (intros; split_ifs <;> first | rfl | linarith)

/-- Band-exactness property of the satfat table: each band's upper
bound is inclusive, a value strictly past a bound falls in the next band,
and a value strictly past the last bound saturates at 10. -/
def SatFatBandsExact : Prop :=
    (∀ v : ℚ, v ≤ 1 → satFatPoints v = 0) ∧
    (∀ v : ℚ, 1 < v → v ≤ 2 → satFatPoints v = 1) ∧
    (∀ v : ℚ, 2 < v → v ≤ 3 → satFatPoints v = 2) ∧
    (∀ v : ℚ, 3 < v → v ≤ 4 → satFatPoints v = 3) ∧
    (∀ v : ℚ, 4 < v → v ≤ 5 → satFatPoints v = 4) ∧
    (∀ v : ℚ, 5 < v → v ≤ 6 → satFatPoints v = 5) ∧
    (∀ v : ℚ, 6 < v → v ≤ 7 → satFatPoints v = 6) ∧
    (∀ v : ℚ, 7 < v → v ≤ 8 → satFatPoints v = 7) ∧
    (∀ v : ℚ, 8 < v → v ≤ 9 → satFatPoints v = 8) ∧
    (∀ v : ℚ, 9 < v → v ≤ 10 → satFatPoints v = 9) ∧
    (∀ v : ℚ, 10 < v → satFatPoints v = 10)

set_option maxHeartbeats 1600000 in
/-- The satfat table satisfies its band-exactness property. -/
theorem satFatPoints_bands : SatFatBandsExact := by
  unfold SatFatBandsExact satFatPoints
  refine ⟨?_, ?_, ?_, ?_, ?_, ?_, ?_, ?_, ?_, ?_, ?_⟩ <;> (intros; split_ifs <;> first | rfl | linarith)

/-- Band-exactness property of the sodium table: each band's upper
bound is inclusive, a value strictly past a bound falls in the next band,
and a value strictly past the last bound saturates at 10. -/
def SodiumBandsExact : Prop :=
    (∀ v : ℚ, v ≤ 90 → sodiumPoints v = 0) ∧
    (∀ v : ℚ, 90 < v → v ≤ 180 → sodiumPoints v = 1) ∧
    (∀ v : ℚ, 180 < v → v ≤ 270 → sodiumPoints v = 2) ∧
    (∀ v : ℚ, 270 < v → v ≤ 360 → sodiumPoints v = 3) ∧
    (∀ v : ℚ, 360 < v → v ≤ 450 → sodiumPoints v = 4) ∧
    (∀ v : ℚ, 450 < v → v ≤ 540 → sodiumPoints v = 5) ∧
    (∀ v : ℚ, 540 < v → v ≤ 630 → sodiumPoints v = 6) ∧
    (∀ v : ℚ, 630 < v → v ≤ 720 → sodiumPoints v = 7) ∧
    (∀ v : ℚ, 720 < v → v ≤ 810 → sodiumPoints v = 8) ∧
    (∀ v : ℚ, 810 < v → v ≤ 900 → sodiumPoints v = 9) ∧
    (∀ v : ℚ, 900 < v → sodiumPoints v = 10)

set_option maxHeartbeats 1600000 in
/-- The sodium table satisfies its band-exactness property. -/
theorem sodiumPoints_bands : SodiumBandsExact := by
  unfold SodiumBandsExact sodiumPoints
  refine ⟨?_, ?_, ?_, ?_, ?_, ?_, ?_, ?_, ?_, ?_, ?_⟩ <;> (intros; split_ifs <;> first | rfl | linarith)

/-- Band-exactness property of the fruits table: each band's upper
bound is inclusive, a value strictly past a bound falls in the next band,
and a value strictly past the last bound saturates at 5. -/
def FruitsBandsExact : Prop :=
    (∀ v : ℚ, v ≤ 40 → fruitsPoints v = 0) ∧
    (∀ v : ℚ, 40 < v → v ≤ 60 → fruitsPoints v = 1) ∧
    (∀ v : ℚ, 60 < v → v ≤ 80 → fruitsPoints v = 2) ∧
    (∀ v : ℚ, 80 < v → fruitsPoints v = 5)

/-- The fruits table satisfies its band-exactness property. -/
theorem fruitsPoints_bands : FruitsBandsExact := by
  unfold FruitsBandsExact fruitsPoints
  refine ⟨?_, ?_, ?_, ?_⟩ <;> (intros; split_ifs <;> first | rfl | linarith)

/-- Band-exactness property of the fiber table: each band's upper
bound is inclusive, a value strictly past a bound falls in the next band,
and a value strictly past the last bound saturates at 5. -/
def FiberBandsExact : Prop :=
    (∀ v : ℚ, v ≤ 0.9 → fiberPoints v = 0) ∧
    (∀ v : ℚ, 0.9 < v → v ≤ 1.9 → fiberPoints v = 1) ∧
    (∀ v : ℚ, 1.9 < v → v ≤ 2.8 → fiberPoints v = 2) ∧
    (∀ v : ℚ, 2.8 < v → v ≤ 3.7 → fiberPoints v = 3) ∧
    (∀ v : ℚ, 3.7 < v → v ≤ 4.7 → fiberPoints v = 4) ∧
    (∀ v : ℚ, 4.7 < v → fiberPoints v = 5)

/-- The fiber table satisfies its band-exactness property. -/
theorem fiberPoints_bands : FiberBandsExact := by
  unfold FiberBandsExact fiberPoints
  refine ⟨?_, ?_, ?_, ?_, ?_, ?_⟩ <;> (intros; split_ifs <;> first | rfl | linarith)

/-- Band-exactness property of the protein table: each band's upper
bound is inclusive, a value strictly past a bound falls in the next band,
and a value strictly past the last bound saturates at 5. -/
def ProteinBandsExact : Prop :=
    (∀ v : ℚ, v ≤ 1.6 → proteinPoints v = 0) ∧
    (∀ v : ℚ, 1.6 < v → v ≤ 3.2 → proteinPoints v = 1) ∧
    (∀ v : ℚ, 3.2 < v → v ≤ 4.8 → proteinPoints v = 2) ∧
    (∀ v : ℚ, 4.8 < v → v ≤ 6.4 → proteinPoints v = 3) ∧
    (∀ v : ℚ, 6.4 < v → v ≤ 8.0 → proteinPoints v = 4) ∧
    (∀ v : ℚ, 8.0 < v → proteinPoints v = 5)

/-- The protein table satisfies its band-exactness property. -/
theorem proteinPoints_bands : ProteinBandsExact := by
  unfold ProteinBandsExact proteinPoints
  refine ⟨?_, ?_, ?_, ?_, ?_, ?_⟩ <;> (intros; split_ifs <;> first | rfl | linarith)

/-- C4: in each of the seven point tables, a value exactly equal to a
band's upper bound yields that band's point count and a value strictly
greater falls into the next band; in particular energy 335 yields 0 energy
points and 336 yields 1, and each negative table saturates at 10 strictly
above its tenth bound. -/
theorem point_tables_boundary_exact :
    EnergyBandsExact ∧ SugarBandsExact ∧ SatFatBandsExact ∧
    SodiumBandsExact ∧ FruitsBandsExact ∧ FiberBandsExact ∧
    ProteinBandsExact ∧ energyPoints 335 = 0 ∧ energyPoints 336 = 1 :=
  ⟨energyPoints_bands, sugarPoints_bands, satFatPoints_bands,
   sodiumPoints_bands, fruitsPoints_bands, fiberPoints_bands,
   proteinPoints_bands, by decide, by decide⟩

/-- Witness for C4: the boundary property applied at the concrete value
336, which lies strictly inside the second energy band. -/
theorem point_tables_boundary_exact_witness : energyPoints 336 = 1 :=
  point_tables_boundary_exact.1.2.1 336 (by norm_num) (by norm_num)

/-- A record whose only non-zero nutrient is 6 g of fibre: fruit points
are 0 while the summed positive total is 5. -/
def beverageFibreOnly : NutritionalData :=
  { Energy := 0, Sugars := 0, SaturatedFattyAcids := 0, Sodium := 0,
    Fruits := 0, Fibre := 6, Protein := 0 }

/-- C1 (refutation): for a valid record with fruit points 0, fibre points
5 and negative total 0, the Beverage score computed by the code is −5,
not the 0 − min(0, 5) = 0 demanded by the stated rule — the fibre points
leak into the beverage positive side because `GetFinalScore` takes
`min` of the already-summed positive total. -/
theorem beverage_positive_leak :
    ValidateNutritionalData DefaultValidationRules beverageFibreOnly = [] ∧
    fruitsPoints beverageFibreOnly.Fruits = 0 ∧
    CalculateNegativePoints beverageFibreOnly = 0 ∧
    (CalculateScore beverageFibreOnly BeverageType).1.Value = -5 ∧
    (CalculateScore beverageFibreOnly BeverageType).1.Value ≠
      CalculateNegativePoints beverageFibreOnly -
        min (fruitsPoints beverageFibreOnly.Fruits) 5 := by
  refine ⟨by decide, by decide, ?_, ?_, ?_⟩ <;>
    norm_num [beverageFibreOnly, CalculateScore, ValidateNutritionalData,
      DefaultValidationRules, CalculateNegativePoints, CalculatePositivePoints,
      GetFinalScore, energyPoints, sugarPoints, satFatPoints, sodiumPoints,
      fruitsPoints, fiberPoints, proteinPoints, BeverageType, WaterType,
      CheeseType]

/-- A record with two offending fields: energy below its minimum and
sugars above its maximum. -/
def energySugarsBad : NutritionalData :=
  { Energy := -1, Sugars := 200, SaturatedFattyAcids := 0, Sodium := 0,
    Fruits := 0, Fibre := 0, Protein := 0 }

/-- C6 (refutation): with both energy and sugars out of range the
validator's list names both fields, but the failure CalculateScore
returns is one single error naming only "energy" — the offending field
"sugars" does not appear in the reported failure. -/
theorem calculateScore_error_list_counterexample :
    ((ValidateNutritionalData DefaultValidationRules energySugarsBad).map
        (fun e => e.Field)) = ["energy", "sugars"] ∧
    (CalculateScore energySugarsBad FoodType).2 =
      some { Field := "energy", Value := -1, Min := some 0,
             Max := some 4000 } := by decide

/-- C6 (amended): for every record with a field out of range,
CalculateScore fails, and the error it reports is the first element of
the validator's error list (not the whole list); a record with negative
energy fails with an error naming "energy". -/
theorem calculateScore_reports_first_error (d : NutritionalData)
    (t : ScoreType)
    (h : ValidateNutritionalData DefaultValidationRules d ≠ []) :
    (CalculateScore d t).2 =
      (ValidateNutritionalData DefaultValidationRules d).head? ∧
    (d.Energy < 0 →
      ∃ e, (CalculateScore d t).2 = some e ∧ e.Field = "energy") := by
  unfold CalculateScore
  cases hE : ValidateNutritionalData DefaultValidationRules d with
  | nil => exact absurd hE h
  | cons e rest =>
    constructor
    · simp
    · intro hEn
      refine ⟨e, by simp, ?_⟩
      have h0 : d.Energy < DefaultValidationRules.EnergyMin := hEn
      unfold ValidateNutritionalData at hE
      rw [if_pos h0] at hE
      simp only [List.cons_append, List.nil_append, List.append_assoc] at hE
      obtain ⟨he, -⟩ := List.cons.inj hE
      rw [← he]

/-- Witness for the amended C6 at a record whose energy is −1. -/
theorem calculateScore_reports_first_error_witness :
    (CalculateScore
        { Energy := -1, Sugars := 0, SaturatedFattyAcids := 0, Sodium := 0,
          Fruits := 0, Fibre := 0, Protein := 0 } FoodType).2 =
      (ValidateNutritionalData DefaultValidationRules
        { Energy := -1, Sugars := 0, SaturatedFattyAcids := 0, Sodium := 0,
          Fruits := 0, Fibre := 0, Protein := 0 }).head? ∧
    ((-1 : ℚ) < 0 →
      ∃ e, (CalculateScore
        { Energy := -1, Sugars := 0, SaturatedFattyAcids := 0, Sodium := 0,
          Fruits := 0, Fibre := 0, Protein := 0 } FoodType).2 = some e ∧
        e.Field = "energy") :=
  calculateScore_reports_first_error _ FoodType (by decide)

/-- The all-zero nutrient record; every field is inside its default range. -/
def allZeroData : NutritionalData :=
  { Energy := 0, Sugars := 0, SaturatedFattyAcids := 0, Sodium := 0,
    Fruits := 0, Fibre := 0, Protein := 0 }

/-- C7 (refutation): CalculateScore with the out-of-enum ScoreType 5 and
valid data returns a computed score (Food rule, Value 0, Grade "B") and no
error — it is not rejected as a validation error. -/
theorem calculateScore_unknown_type_counterexample :
    CalculateScore allZeroData (5 : ScoreType) =
      ({ Value := 0, Grade := "B", Positive := 0, Negative := 0,
         ScoreType := (5 : Int) }, none) := by
  norm_num [allZeroData, CalculateScore, ValidateNutritionalData,
    DefaultValidationRules, CalculateNegativePoints, CalculatePositivePoints,
    GetFinalScore, GetScoreGrade, energyPoints, sugarPoints, satFatPoints,
    sodiumPoints, fruitsPoints, fiberPoints, proteinPoints, BeverageType,
    WaterType, CheeseType, FoodType]

/-- C7 (amended): for valid data and a ScoreType outside
{Food, Beverage, Water, Cheese}, CalculateScore does not reject the call:
it succeeds and computes the score under the default Food combination rule
(negative − positive); the validator's ValidateScoreType would classify
such a value as invalid, but CalculateScore never consults it. -/
theorem calculateScore_unknown_type_defaults_to_food (d : NutritionalData)
    (t : ScoreType)
    (hv : ValidateNutritionalData DefaultValidationRules d = [])
    (ht : t ≠ FoodType ∧ t ≠ BeverageType ∧ t ≠ WaterType ∧ t ≠ CheeseType) :
    (CalculateScore d t).2 = none ∧
    (CalculateScore d t).1.Value =
      CalculateNegativePoints d - CalculatePositivePoints d t ∧
    (ValidateScoreType t).isSome = true := by
  obtain ⟨h0, h1, h2, h3⟩ := ht
  unfold CalculateScore GetFinalScore ValidateScoreType
  rw [hv]
  simp [h0, h1, h2, h3]

/-- Witness for the amended C7 at the all-zero record and ScoreType 7. -/
theorem calculateScore_unknown_type_defaults_to_food_witness :
    (CalculateScore allZeroData (7 : ScoreType)).2 = none ∧
    (CalculateScore allZeroData (7 : ScoreType)).1.Value =
      CalculateNegativePoints allZeroData -
        CalculatePositivePoints allZeroData (7 : ScoreType) ∧
    (ValidateScoreType (7 : ScoreType)).isSome = true :=
  calculateScore_unknown_type_defaults_to_food allZeroData 7 (by decide)
    (by refine ⟨?_, ?_, ?_, ?_⟩ <;> decide)
